import Mathlib

/-!
Verification development for the Golang-Messaging-System repository.

The core under study is the token lifecycle: the revocation registry
(`internal/auth/token_blacklist.go`), the JWT validation middleware
(`internal/middleware/jwt_middleware.go`), and the auth endpoints
(`internal/api/auth.go`, `internal/api/routes.go`).

Shallow embedding conventions:
- Wall-clock time is a `Nat` (Unix seconds).  Go's `time.Now().After(e)`
  is the strict comparison `now > e`.
- The Go `map[string]time.Time` inside the blacklist is embedded as an
  association list with insert-replace semantics (Go map assignment
  overwrites the stored value for an existing key).
- A presented JWT is embedded as its parsed claim set plus a flag
  `wellFormedSigned` abstracting "structurally well formed, HMAC signing
  method, secret available, and signature verifies" — exactly the cases
  in which `jwt.Parse`'s key function and signature check succeed.
- The expiry validation performed inside `jwt.Parse` (dgrijalva/jwt-go v3,
  `verifyExp`) accepts a token iff `now <= exp`; a token is rejected as
  expired iff `now > exp`, matching `time.Now().After` used elsewhere in
  the repository.
-/

namespace MessagingSystem

/-- Association-list lookup embedding a read of the Go map
`tb.blacklist[token]` (first matching key; lists built by `mapInsert`
never contain duplicate keys). -/
def mapLookup : List (String × Nat) → String → Option Nat
  | [], _ => none
  | p :: rest, k => if p.1 = k then some p.2 else mapLookup rest k

/-- Association-list insertion embedding the Go map assignment
`tb.blacklist[token] = expiry`: overwrites the value when the key is
present, appends otherwise. -/
def mapInsert : List (String × Nat) → String → Nat → List (String × Nat)
  | [], k, v => [(k, v)]
  | p :: rest, k, v => if p.1 = k then (k, v) :: rest else p :: mapInsert rest k v

/-- Association-list deletion embedding the Go `delete(tb.blacklist, token)`. -/
def mapErase : List (String × Nat) → String → List (String × Nat)
  | [], _ => []
  | p :: rest, k => if p.1 = k then mapErase rest k else p :: mapErase rest k

/-- State of `TokenBlacklist` (token_blacklist.go): the revocation map from
unique token identifier (jti) to the expiry of the revoked token.  The
mutex and cleanup ticker carry no state relevant to the sequential
semantics. -/
structure TokenBlacklist where
  blacklist : List (String × Nat)
deriving DecidableEq, Repr

/-- `NewTokenBlacklist` (token_blacklist.go): fresh registry with an empty
map (the background cleanup goroutine is modelled by explicit `cleanup`
steps). -/
def NewTokenBlacklist : TokenBlacklist := ⟨[]⟩

/-- `TokenBlacklist.Add` (token_blacklist.go lines 29-34):
`tb.blacklist[token] = expiry` under the write lock. -/
def TokenBlacklist.Add (tb : TokenBlacklist) (token : String) (expiry : Nat) :
    TokenBlacklist :=
  ⟨mapInsert tb.blacklist token expiry⟩

/-- `TokenBlacklist.IsBlacklisted` (token_blacklist.go lines 37-58), with
the implicit `time.Now()` made an explicit argument.  Returns the boolean
result together with the registry state after the call (the deferred
delete performs lazy eviction of an entry whose expiry has passed). -/
def TokenBlacklist.IsBlacklisted (tb : TokenBlacklist) (token : String) (now : Nat) :
    Bool × TokenBlacklist :=
  match mapLookup tb.blacklist token with
  | none => (false, tb)
  | some expiryTime =>
    if now > expiryTime then
      (false, ⟨mapErase tb.blacklist token⟩)
    else
      (true, tb)

/-- `TokenBlacklist.cleanup` (token_blacklist.go lines 61-71): one run of
the periodic sweep; deletes every entry whose expiry has passed
(`now.After(expiry)`, i.e. `now > expiry`). -/
def TokenBlacklist.cleanup (tb : TokenBlacklist) (now : Nat) : TokenBlacklist :=
  ⟨tb.blacklist.filter (fun p => ! decide (now > p.2))⟩

/-- Parsed claim set of a presented JWT, as read by the middleware:
`claims["user_id"]` (presence only), `claims["username"]`,
`claims["type"].(string)` (`none` when absent or not a string),
`claims["jti"].(string)` (likewise), and the numeric `exp` claim. -/
structure Claims where
  user_id : Option Int
  username : Option String
  type : Option String
  jti : Option String
  exp : Nat
deriving DecidableEq, Repr

/-- A presented token: its parsed claims plus whether it is structurally
well formed and correctly signed (HMAC method, secret present, signature
valid) — the conditions under which `jwt.Parse` returns no error apart
from claim validation. -/
structure Token where
  claims : Claims
  wellFormedSigned : Bool
deriving DecidableEq, Repr

/-- The distinct rejection reasons of the validation pipeline in
`JWTAuthMiddleware` (jwt_middleware.go lines 38-94), in source order. -/
inductive Reject where
  | invalidOrExpired : Reject
  | wrongKind : Reject
  | missingJti : Reject
  | revoked : Reject
  | missingUserId : Reject
deriving DecidableEq, Repr

/-- The validation pipeline of `JWTAuthMiddleware` (jwt_middleware.go
lines 38-94) with the expected token kind as a parameter; the middleware
itself is the instance `expected = "access"` (the literal at line 63).
The refresh-side caller is absent from src, so the `"refresh"` instance
follows spec section 4.2, which specifies the same pipeline with
`expected_kind` a parameter.  Checks in source order: parse
(signature/structure and expiry, one combined error), token kind, jti
presence, revocation, user_id presence.  Returns the subject and unique
id on success, and the registry state after the call. -/
def validateKind (expected : String) (tok : Token) (now : Nat) (tb : TokenBlacklist) :
    Except Reject (Int × String) × TokenBlacklist :=
  if tok.wellFormedSigned = false ∨ now > tok.claims.exp then
    (Except.error Reject.invalidOrExpired, tb)
  else
    match tok.claims.type with
    | none => (Except.error Reject.wrongKind, tb)
    | some t =>
      if t = expected then
        match tok.claims.jti with
        | none => (Except.error Reject.missingJti, tb)
        | some j =>
          match tb.IsBlacklisted j now with
          | (true, tb2) => (Except.error Reject.revoked, tb2)
          | (false, tb2) =>
            match tok.claims.user_id with
            | none => (Except.error Reject.missingUserId, tb2)
            | some uid => (Except.ok (uid, j), tb2)
      else (Except.error Reject.wrongKind, tb)

/-- The HTTP error body written by `JWTAuthMiddleware` for each rejection
reason (jwt_middleware.go lines 54, 64, 72, 77, 85). -/
def rejectMsg : Reject → String
  | Reject.invalidOrExpired => "Invalid or expired token"
  | Reject.wrongKind => "Invalid token type"
  | Reject.missingJti => "Invalid token: missing jti claim"
  | Reject.revoked => "Token has been revoked"
  | Reject.missingUserId => "Invalid token: missing user_id claim"

/-- Externally visible outcome of the middleware: either the request
proceeds with the user id placed in the context (`c.Set` then `c.Next`), or
it is aborted with an error body. -/
inductive MWOutcome where
  | next : Int → MWOutcome
  | unauthorized : String → MWOutcome
deriving DecidableEq, Repr

/-- The HTTP response the middleware writes: every rejection is
`c.JSON(http.StatusUnauthorized, ...)` — status 401 with the reason
message as body; on success no response is written (the chain
continues). -/
def mwResponse : MWOutcome → Option (Nat × String)
  | MWOutcome.next _ => none
  | MWOutcome.unauthorized m => some (401, m)

/-- `JWTAuthMiddleware` (jwt_middleware.go lines 38-99) after the Bearer
token string has been extracted from the Authorization header: the
`expected = "access"` instance of the pipeline, with each rejection
mapped to its 401 body. -/
def jwtAuthCheck (tok : Token) (now : Nat) (tb : TokenBlacklist) :
    MWOutcome × TokenBlacklist :=
  match validateKind "access" tok now tb with
  | (Except.ok p, tb2) => (MWOutcome.next p.1, tb2)
  | (Except.error r, tb2) => (MWOutcome.unauthorized (rejectMsg r), tb2)

/-- Modelled from the spec: the Token Issuer of section 4.1
(`issue(subject, kind, ttl)`) is absent from src (the only token
construction present, in `LoginHandler`, sets neither a kind nor a jti
claim).  Per the spec it encodes subject, kind, a fresh unique id (passed
here as an argument, opacity of its generation preserved) and absolute
expiry `now + ttl`, signed with the shared secret. -/
def issue (subject : Int) (kind : String) (j : String) (now ttl : Nat) : Token :=
  { claims :=
      { user_id := some subject
        username := none
        type := some kind
        jti := some j
        exp := now + ttl }
    wellFormedSigned := true }

/-- Token construction in `LoginHandler` (auth.go lines 91-96): claims are
exactly `user_id`, `username` and `exp = now + 24h` (86400 seconds); no
`type` claim, no `jti` claim. -/
def loginClaims (userId : Int) (username : String) (now : Nat) : Claims :=
  { user_id := some userId
    username := some username
    type := none
    jti := none
    exp := now + 86400 }

/-- The complete list of tokens issued by a successful `LoginHandler` run
(auth.go lines 91-108): one HS256-signed token with `loginClaims`.
`SignedString` with the environment secret succeeds, so the token is
well formed and signed. -/
def loginIssuedTokens (userId : Int) (username : String) (now : Nat) : List Token :=
  [{ claims := loginClaims userId username now, wellFormedSigned := true }]

/-- `LogoutHandler` (auth.go lines 111-116): ignores the presented token
and the registry entirely and returns 200 with a success message; no
validation and no revocation occur. -/
def LogoutHandler (_tok : Token) (tb : TokenBlacklist) :
    (Nat × String) × TokenBlacklist :=
  ((200, "Logout successful"), tb)

/-- Modelled from the spec: `RefreshTokenHandler` is registered at
routes.go line 17 but its body is absent from src.  Per spec sections 4.4
and 6 it validates the presented token with `expected_kind = refresh`,
and on success issues a fresh access token and revokes the consumed
refresh token's unique id; per the section 3 invariant the revocation
entry's expiry equals the expiry of the revoked token.  The fresh access
token's jti and ttl are passed as arguments. -/
def RefreshTokenHandler (tok : Token) (newJti : String) (now ttl : Nat)
    (tb : TokenBlacklist) : Except Reject Token × TokenBlacklist :=
  match validateKind "refresh" tok now tb with
  | (Except.ok p, tb2) =>
    (Except.ok (issue p.1 "access" newJti now ttl), tb2.Add p.2 tok.claims.exp)
  | (Except.error r, tb2) => (Except.error r, tb2)

/-- One registry operation, for stating invariance of a revocation under
arbitrary subsequent registry activity: an insertion (`Add`), a lookup
(`IsBlacklisted`, which may lazily evict), or a sweep (`cleanup`), each
with its own wall-clock time. -/
inductive RegOp where
  | addOp : String → Nat → RegOp
  | queryOp : String → Nat → RegOp
  | sweepOp : Nat → RegOp
deriving DecidableEq, Repr

/-- Effect of one registry operation on the registry state. -/
def applyOp (tb : TokenBlacklist) : RegOp → TokenBlacklist
  | RegOp.addOp id e => tb.Add id e
  | RegOp.queryOp id t => (tb.IsBlacklisted id t).2
  | RegOp.sweepOp t => tb.cleanup t

/-- Effect of a sequence of registry operations, first to last. -/
def applyOps (ops : List RegOp) (tb : TokenBlacklist) : TokenBlacklist :=
  ops.foldl applyOp tb

/-- Side conditions under which an operation cannot disturb the entry for
jti `j` with expiry `e`: insertions concern other ids (unique ids are
never reused across tokens, spec section 3), and lookups and sweeps
happen while the revoked token is still unexpired (at or before `e`). -/
def opOK (j : String) (e : Nat) : RegOp → Bool
  | RegOp.addOp id _ => decide (id ≠ j)
  | RegOp.queryOp _ t => decide (t ≤ e)
  | RegOp.sweepOp t => decide (t ≤ e)

/-! ## Association-list lemmas -/

theorem mapLookup_insert_self (l : List (String × Nat)) (k : String) (v : Nat) :
    mapLookup (mapInsert l k v) k = some v := by
  induction l with
  | nil => simp [mapInsert, mapLookup]
  | cons p rest ih =>
    by_cases h : p.1 = k
    · simp [mapInsert, mapLookup, h]
    · simp [mapInsert, mapLookup, h, ih]

theorem mapLookup_insert_ne (l : List (String × Nat)) (k k2 : String) (v : Nat)
    (h : k2 ≠ k) : mapLookup (mapInsert l k v) k2 = mapLookup l k2 := by
  have hk : ¬ (k = k2) := fun h2 => h h2.symm
  induction l with
  | nil => simp [mapInsert, mapLookup, hk]
  | cons p rest ih =>
    by_cases hp : p.1 = k
    · simp [mapInsert, mapLookup, hp, hk]
    · simp [mapInsert, mapLookup, hp, ih]

theorem mapLookup_erase_self (l : List (String × Nat)) (k : String) :
    mapLookup (mapErase l k) k = none := by
  induction l with
  | nil => simp [mapErase, mapLookup]
  | cons p rest ih =>
    by_cases h : p.1 = k
    · simp [mapErase, h, ih]
    · simp [mapErase, mapLookup, h, ih]

theorem mapLookup_erase_ne (l : List (String × Nat)) (k k2 : String)
    (h : k2 ≠ k) : mapLookup (mapErase l k) k2 = mapLookup l k2 := by
  have hk : ¬ (k = k2) := fun h2 => h h2.symm
  induction l with
  | nil => simp [mapErase, mapLookup]
  | cons p rest ih =>
    by_cases hp : p.1 = k
    · simp [mapErase, mapLookup, hp, hk, ih]
    · simp [mapErase, mapLookup, hp, ih]

theorem mapInsert_insert_same (l : List (String × Nat)) (k : String) (v : Nat) :
    mapInsert (mapInsert l k v) k v = mapInsert l k v := by
  induction l with
  | nil => simp [mapInsert]
  | cons p rest ih =>
    by_cases h : p.1 = k
    · simp [mapInsert, h]
    · simp [mapInsert, h, ih]

theorem mapLookup_insert_insert (l : List (String × Nat)) (k : String) (v v2 : Nat) :
    mapLookup (mapInsert (mapInsert l k v) k v2) k = some v2 :=
  mapLookup_insert_self (mapInsert l k v) k v2

theorem mapLookup_mem (l : List (String × Nat)) (k : String) (v : Nat)
    (h : mapLookup l k = some v) : (k, v) ∈ l := by
  induction l with
  | nil => simp [mapLookup] at h
  | cons p rest ih =>
    by_cases hp : p.1 = k
    · simp [mapLookup, hp] at h
      have hpkv : p = (k, v) := by
        cases p
        simp_all
      rw [hpkv]
      exact List.mem_cons_self _ _
    · simp [mapLookup, hp] at h
      exact List.mem_cons_of_mem p (ih h)

theorem mapLookup_filter (l : List (String × Nat)) (k : String) (v : Nat)
    (p : String × Nat → Bool)
    (h : mapLookup l k = some v) (hp : p (k, v) = true) :
    mapLookup (l.filter p) k = some v := by
  induction l with
  | nil => simp [mapLookup] at h
  | cons q rest ih =>
    by_cases hq : q.1 = k
    · simp [mapLookup, hq] at h
      have hqkv : q = (k, v) := by
        cases q
        simp_all
      rw [hqkv]
      simp [List.filter, hp, mapLookup]
    · simp [mapLookup, hq] at h
      by_cases hpq : p q = true
      · simp [List.filter, hpq, mapLookup, hq]
        exact ih h
      · simp only [Bool.not_eq_true] at hpq
        simp [List.filter, hpq]
        exact ih h

theorem filter_eq_nil_of_all_false (l : List (String × Nat))
    (p : String × Nat → Bool) :
    (∀ x ∈ l, p x = false) → l.filter p = [] := by
  induction l with
  | nil => intro _; rfl
  | cons q rest ih =>
    intro h
    have hq : p q = false := h q (List.mem_cons_self q rest)
    have hrest : ∀ x ∈ rest, p x = false :=
      fun x hx => h x (List.mem_cons_of_mem q hx)
    simp [List.filter, hq]
    intro a b hab
    exact hrest (a, b) hab

/-- A blacklist entry whose expiry has not passed makes `IsBlacklisted`
report true and leave the state unchanged. -/
theorem isBlacklisted_of_lookup (tb : TokenBlacklist) (j : String) (e now : Nat)
    (h : mapLookup tb.blacklist j = some e) (hnow : now ≤ e) :
    tb.IsBlacklisted j now = (true, tb) := by
  simp [TokenBlacklist.IsBlacklisted, h, Nat.not_lt.2 hnow]

/-! ## Claim theorems -/

/-- C6: if an id is present in the registry with an expiry in the past at
lookup time, `IsBlacklisted` returns false and as a side effect deletes
that entry from the registry storage (lazy eviction); an id that is not
in the registry (in particular one never inserted) yields false with the
state unchanged. -/
theorem isBlacklisted_lazy_eviction (tb : TokenBlacklist) (id : String) (now : Nat) :
    (mapLookup tb.blacklist id = none → tb.IsBlacklisted id now = (false, tb)) ∧
    (∀ e, mapLookup tb.blacklist id = some e → now > e →
      tb.IsBlacklisted id now = (false, ⟨mapErase tb.blacklist id⟩) ∧
      mapLookup (mapErase tb.blacklist id) id = none) := by
  constructor
  · intro h
    simp [TokenBlacklist.IsBlacklisted, h]
  · intro e h hexp
    constructor
    · simp [TokenBlacklist.IsBlacklisted, h, hexp]
    · exact mapLookup_erase_self tb.blacklist id

/-- Witness for C6 at a concrete registry: entry a with expiry 5 looked
up at time 9 is reported unrevoked and evicted. -/
theorem isBlacklisted_lazy_eviction_witness :
    TokenBlacklist.IsBlacklisted ⟨[("a", 5)]⟩ "a" 9 =
      (false, ⟨mapErase [("a", 5)] "a"⟩) ∧
    mapLookup (mapErase [("a", 5)] "a") "a" = none :=
  (isBlacklisted_lazy_eviction ⟨[("a", 5)]⟩ "a" 9).2 5 (by decide) (by decide)

/-- C7: one run of the sweep deletes every entry whose expiry has passed
relative to the given time; if all entries have expired the registry is
left with zero entries. -/
theorem cleanup_removes_expired (tb : TokenBlacklist) (now : Nat) :
    (∀ id e, mapLookup (tb.cleanup now).blacklist id = some e → ¬ now > e) ∧
    ((∀ p ∈ tb.blacklist, now > p.2) → (tb.cleanup now).blacklist = []) := by
  constructor
  · intro id e h
    have hmem := mapLookup_mem _ _ _ h
    have hfil := List.of_mem_filter hmem
    simpa using hfil
  · intro h
    apply filter_eq_nil_of_all_false
    intro x hx
    simp [h x hx]

/-- Witness for C7 at a concrete registry: both entries expired at time
10, so the sweep empties the registry. -/
theorem cleanup_removes_expired_witness :
    (TokenBlacklist.cleanup ⟨[("a", 5), ("b", 7)]⟩ 10).blacklist = [] :=
  (cleanup_removes_expired ⟨[("a", 5), ("b", 7)]⟩ 10).2 (by decide)

/-- C8 counterexample: re-revoking the same id with a different expiry is
not a no-op on the stored entry — `Add` overwrites it (Go map
assignment), so the state after the second call differs from the state
after one call. -/
theorem revoke_overwrites_counterexample :
    mapLookup ((NewTokenBlacklist.Add "a" 5).Add "a" 10).blacklist "a" = some 10 ∧
    mapLookup (NewTokenBlacklist.Add "a" 5).blacklist "a" = some 5 ∧
    (NewTokenBlacklist.Add "a" 5).Add "a" 10 ≠ NewTokenBlacklist.Add "a" 5 :=
  ⟨by decide, by decide, by decide⟩

/-- C8 (amended): revoking with the same id and the same expiry twice
leaves the registry state equal to one call (idempotence as literally
stated), but a re-revocation of the same id with another expiry
overwrites the stored expiry rather than being a no-op. -/
theorem revoke_idempotent_same_expiry (tb : TokenBlacklist) (id : String) (e e2 : Nat) :
    (tb.Add id e).Add id e = tb.Add id e ∧
    mapLookup ((tb.Add id e).Add id e2).blacklist id = some e2 := by
  constructor
  · simp [TokenBlacklist.Add, mapInsert_insert_same]
  · exact mapLookup_insert_self _ _ _

/-- C10: a presented token whose signature, expiry and kind checks all
pass but which carries no jti claim is rejected by the middleware as
unauthorized with the missing-jti body, with the registry untouched (the
revocation check is not skipped in its favour). -/
theorem missing_jti_rejected (tok : Token) (now : Nat) (tb : TokenBlacklist)
    (hsig : tok.wellFormedSigned = true) (hexp : now ≤ tok.claims.exp)
    (htype : tok.claims.type = some "access") (hjti : tok.claims.jti = none) :
    jwtAuthCheck tok now tb =
      (MWOutcome.unauthorized "Invalid token: missing jti claim", tb) := by
  simp [jwtAuthCheck, validateKind, hsig, htype, hjti, Nat.not_lt.2 hexp, rejectMsg]

/-- Witness for C10 at a concrete token: well signed, unexpired, kind
access, no jti. -/
theorem missing_jti_rejected_witness :
    jwtAuthCheck ⟨⟨some 1, none, some "access", none, 100⟩, true⟩ 50 NewTokenBlacklist =
      (MWOutcome.unauthorized "Invalid token: missing jti claim", NewTokenBlacklist) :=
  missing_jti_rejected ⟨⟨some 1, none, some "access", none, 100⟩, true⟩ 50
    NewTokenBlacklist rfl (by decide) rfl rfl

/-- C5 counterexample: two of the four rejection reasons produce
different externally visible outcomes — an expired token is answered
with the body Invalid or expired token while a revoked token is answered
with Token has been revoked, so a caller can distinguish them. -/
theorem rejection_bodies_differ_counterexample :
    (jwtAuthCheck ⟨⟨some 1, none, some "access", some "a", 50⟩, true⟩ 100
        NewTokenBlacklist).1 = MWOutcome.unauthorized "Invalid or expired token" ∧
    (jwtAuthCheck ⟨⟨some 1, none, some "access", some "b", 200⟩, true⟩ 100
        (NewTokenBlacklist.Add "b" 200)).1 =
      MWOutcome.unauthorized "Token has been revoked" ∧
    MWOutcome.unauthorized "Invalid or expired token" ≠
      MWOutcome.unauthorized "Token has been revoked" :=
  ⟨rfl, rfl, by decide⟩

/-- C5 (amended): every rejection of the middleware is answered with the
same HTTP status 401, and malformed or unsigned tokens share one body
with expired tokens, but the body names the reason class, so wrong kind,
revoked and the malformed-or-expired group remain distinguishable by the
caller. -/
theorem rejection_status_uniform_bodies_differ :
    (∀ tok now tb m, (jwtAuthCheck tok now tb).1 = MWOutcome.unauthorized m →
      mwResponse (MWOutcome.unauthorized m) = some (401, m) ∧
      (m = "Invalid or expired token" ∨ m = "Invalid token type" ∨
       m = "Token has been revoked" ∨ m = "Invalid token: missing jti claim" ∨
       m = "Invalid token: missing user_id claim")) ∧
    (∀ tok now tb, (tok.wellFormedSigned = false ∨ now > tok.claims.exp) →
      (jwtAuthCheck tok now tb).1 =
        MWOutcome.unauthorized "Invalid or expired token") := by
  constructor
  · intro tok now tb m h
    refine ⟨rfl, ?_⟩
    rcases hv : validateKind "access" tok now tb with ⟨res, tb2⟩
    cases res with
    | ok p => simp [jwtAuthCheck, hv] at h
    | error r =>
      simp [jwtAuthCheck, hv] at h
      cases r <;> simp_all [rejectMsg]
  · intro tok now tb h
    simp only [jwtAuthCheck, validateKind]
    rw [if_pos h]
    rfl

/-- Witness for C5 at a concrete unsigned token: the rejection body is
the combined invalid-or-expired message with status 401. -/
theorem rejection_status_uniform_witness :
    (jwtAuthCheck ⟨⟨some 1, none, none, none, 100⟩, false⟩ 0 NewTokenBlacklist).1 =
      MWOutcome.unauthorized "Invalid or expired token" :=
  rejection_status_uniform_bodies_differ.2 ⟨⟨some 1, none, none, none, 100⟩, false⟩ 0
    NewTokenBlacklist (Or.inl rfl)

/-- C1 (amended): a token issued with ttl d validates for a given
expected kind exactly when the current time has not passed issuance plus
d, its unique id is not revoked, and its encoded kind equals the
expected kind, in which case the subject and unique id are returned; in
every other case the result is an error carrying no identity. -/
theorem validate_issued_token_iff (subject : Int) (kind expected j : String)
    (t0 ttl now : Nat) (tb : TokenBlacklist) :
    ((validateKind expected (issue subject kind j t0 ttl) now tb).1 =
        Except.ok (subject, j) ↔
      (now ≤ t0 + ttl ∧ (tb.IsBlacklisted j now).1 = false ∧ kind = expected)) ∧
    ((validateKind expected (issue subject kind j t0 ttl) now tb).1 =
        Except.ok (subject, j) ∨
      ∃ r, (validateKind expected (issue subject kind j t0 ttl) now tb).1 =
        Except.error r) := by
  rcases hb : tb.IsBlacklisted j now with ⟨b, tbq⟩
  by_cases hexp : now > t0 + ttl
  · have hv : validateKind expected (issue subject kind j t0 ttl) now tb =
        (Except.error Reject.invalidOrExpired, tb) := by
      simp [validateKind, issue, hexp]
    constructor
    · rw [hv]
      simp [Nat.not_le.2 hexp]
    · right
      exact ⟨Reject.invalidOrExpired, by rw [hv]⟩
  · by_cases hkind : kind = expected
    · cases b with
      | true =>
        have hv : validateKind expected (issue subject kind j t0 ttl) now tb =
            (Except.error Reject.revoked, tbq) := by
          simp [validateKind, issue, hexp, hkind, hb]
        constructor
        · rw [hv]
          simp [hb]
        · right
          exact ⟨Reject.revoked, by rw [hv]⟩
      | false =>
        have hv : validateKind expected (issue subject kind j t0 ttl) now tb =
            (Except.ok (subject, j), tbq) := by
          simp [validateKind, issue, hexp, hkind, hb]
        constructor
        · rw [hv]
          simp [hb, hkind, Nat.not_lt.1 hexp]
        · left
          rw [hv]
    · have hv : validateKind expected (issue subject kind j t0 ttl) now tb =
          (Except.error Reject.wrongKind, tb) := by
        simp [validateKind, issue, hexp, hkind]
      constructor
      · rw [hv]
        simp [hkind]
      · right
        exact ⟨Reject.wrongKind, by rw [hv]⟩

/-- C1 counterexample: at the instant now equals issuance plus ttl the
validator still accepts the token (jwt-go treats a token as expired only
when now exceeds exp), so success does not imply that the current time
is strictly before issuance plus ttl. -/
theorem validate_issued_boundary_counterexample :
    (validateKind "access" (issue 1 "access" "j1" 0 10) 10 NewTokenBlacklist).1 =
      Except.ok ((1 : Int), "j1") ∧ ¬ ((10 : Nat) < 0 + 10) :=
  ⟨rfl, by decide⟩

/-- A registry operation that satisfies `opOK` does not disturb an
existing entry for jti j with expiry e. -/
theorem lookup_preserved_op (j : String) (e : Nat) (tb : TokenBlacklist)
    (op : RegOp) (h : mapLookup tb.blacklist j = some e)
    (hop : opOK j e op = true) :
    mapLookup (applyOp tb op).blacklist j = some e := by
  cases op with
  | addOp id e2 =>
    have hne : id ≠ j := by simpa [opOK] using hop
    have hne2 : j ≠ id := fun h2 => hne h2.symm
    calc mapLookup (mapInsert tb.blacklist id e2) j
        = mapLookup tb.blacklist j := mapLookup_insert_ne tb.blacklist id j e2 hne2
      _ = some e := h
  | queryOp id t =>
    have ht : t ≤ e := by simpa [opOK] using hop
    by_cases hid : id = j
    · subst hid
      simp [applyOp, TokenBlacklist.IsBlacklisted, h, Nat.not_lt.2 ht]
    · have hne2 : j ≠ id := fun h2 => hid h2.symm
      rcases hq : mapLookup tb.blacklist id with _ | e2
      · simp [applyOp, TokenBlacklist.IsBlacklisted, hq]
        exact h
      · by_cases he2 : t > e2
        · simp [applyOp, TokenBlacklist.IsBlacklisted, hq, he2]
          calc mapLookup (mapErase tb.blacklist id) j
              = mapLookup tb.blacklist j := mapLookup_erase_ne tb.blacklist id j hne2
            _ = some e := h
        · simp [applyOp, TokenBlacklist.IsBlacklisted, hq, he2]
          exact h
  | sweepOp t =>
    have ht : t ≤ e := by simpa [opOK] using hop
    have hp : (fun p => ! decide (t > p.2)) (j, e) = true := by
      simp [Nat.not_lt.2 ht]
    simpa [applyOp, TokenBlacklist.cleanup] using
      mapLookup_filter tb.blacklist j e _ h hp

/-- A sequence of registry operations each satisfying `opOK` preserves an
existing entry for jti j with expiry e. -/
theorem lookup_preserved_ops (j : String) (e : Nat) (ops : List RegOp) :
    ∀ tb : TokenBlacklist, mapLookup tb.blacklist j = some e →
      (∀ op ∈ ops, opOK j e op = true) →
      mapLookup (applyOps ops tb).blacklist j = some e := by
  induction ops with
  | nil =>
    intro tb h _
    simpa [applyOps] using h
  | cons op rest ih =>
    intro tb h hops
    have h1 := lookup_preserved_op j e tb op h (hops op (List.mem_cons_self op rest))
    have hrest : ∀ o ∈ rest, opOK j e o = true :=
      fun o ho => hops o (List.mem_cons_of_mem op ho)
    simpa [applyOps] using ih (applyOp tb op) h1 hrest

/-- C4: once a refresh token's unique id has been consumed by one
successful rotation, that id keeps reporting revoked through any further
registry activity (insertions of other ids, lookups and sweeps while the
token is unexpired), so a second rotation attempt with the same refresh
token before its natural expiry is rejected as revoked. -/
theorem refresh_rotation_single_use
    (tok : Token) (j : String) (u : Int) (nj1 nj2 : String)
    (now1 now2 ttl1 ttl2 : Nat) (tb : TokenBlacklist) (ops : List RegOp)
    (hsig : tok.wellFormedSigned = true)
    (htype : tok.claims.type = some "refresh")
    (hjti : tok.claims.jti = some j)
    (huid : tok.claims.user_id = some u)
    (h1 : now1 ≤ tok.claims.exp)
    (hfresh : (tb.IsBlacklisted j now1).1 = false)
    (hops : ∀ op ∈ ops, opOK j tok.claims.exp op = true)
    (h2 : now2 ≤ tok.claims.exp) :
    (RefreshTokenHandler tok nj1 now1 ttl1 tb).1 =
      Except.ok (issue u "access" nj1 now1 ttl1) ∧
    ((applyOps ops (RefreshTokenHandler tok nj1 now1 ttl1 tb).2).IsBlacklisted
        j now2).1 = true ∧
    (RefreshTokenHandler tok nj2 now2 ttl2
        (applyOps ops (RefreshTokenHandler tok nj1 now1 ttl1 tb).2)).1 =
      Except.error Reject.revoked := by
  rcases hb : tb.IsBlacklisted j now1 with ⟨b, tbq⟩
  rw [hb] at hfresh
  simp at hfresh
  subst hfresh
  have hv1 : validateKind "refresh" tok now1 tb = (Except.ok (u, j), tbq) := by
    simp [validateKind, hsig, htype, hjti, huid, hb, Nat.not_lt.2 h1]
  have hr1 : RefreshTokenHandler tok nj1 now1 ttl1 tb =
      (Except.ok (issue u "access" nj1 now1 ttl1), tbq.Add j tok.claims.exp) := by
    simp [RefreshTokenHandler, hv1]
  have hlook : mapLookup (tbq.Add j tok.claims.exp).blacklist j =
      some tok.claims.exp := mapLookup_insert_self tbq.blacklist j tok.claims.exp
  have hlook2 : mapLookup (applyOps ops (tbq.Add j tok.claims.exp)).blacklist j =
      some tok.claims.exp :=
    lookup_preserved_ops j tok.claims.exp ops (tbq.Add j tok.claims.exp) hlook hops
  have hb2 : (applyOps ops (tbq.Add j tok.claims.exp)).IsBlacklisted j now2 =
      (true, applyOps ops (tbq.Add j tok.claims.exp)) :=
    isBlacklisted_of_lookup _ j tok.claims.exp now2 hlook2 h2
  have hv2 : validateKind "refresh" tok now2 (applyOps ops (tbq.Add j tok.claims.exp)) =
      (Except.error Reject.revoked, applyOps ops (tbq.Add j tok.claims.exp)) := by
    simp [validateKind, hsig, htype, hjti, hb2, Nat.not_lt.2 h2]
  refine ⟨by rw [hr1], ?_, ?_⟩
  · rw [hr1]
    simp [hb2]
  · rw [hr1]
    simp [RefreshTokenHandler, hv2]

/-- Witness for C4 at concrete data: refresh token with jti r1 and
expiry 1000, rotated at time 10, with an unrelated insertion, a lookup
and a sweep in between, then rotated again at time 20. -/
theorem refresh_rotation_single_use_witness :
    (RefreshTokenHandler ⟨⟨some 1, none, some "refresh", some "r1", 1000⟩, true⟩
        "a1" 10 900 NewTokenBlacklist).1 =
      Except.ok (issue 1 "access" "a1" 10 900) ∧
    ((applyOps [RegOp.addOp "x" 50, RegOp.queryOp "r1" 15, RegOp.sweepOp 16]
        (RefreshTokenHandler ⟨⟨some 1, none, some "refresh", some "r1", 1000⟩, true⟩
          "a1" 10 900 NewTokenBlacklist).2).IsBlacklisted "r1" 20).1 = true ∧
    (RefreshTokenHandler ⟨⟨some 1, none, some "refresh", some "r1", 1000⟩, true⟩
        "a2" 20 900
        (applyOps [RegOp.addOp "x" 50, RegOp.queryOp "r1" 15, RegOp.sweepOp 16]
          (RefreshTokenHandler ⟨⟨some 1, none, some "refresh", some "r1", 1000⟩, true⟩
            "a1" 10 900 NewTokenBlacklist).2)).1 =
      Except.error Reject.revoked :=
  refresh_rotation_single_use
    ⟨⟨some 1, none, some "refresh", some "r1", 1000⟩, true⟩ "r1" 1 "a1" "a2"
    10 20 900 900 NewTokenBlacklist
    [RegOp.addOp "x" 50, RegOp.queryOp "r1" 15, RegOp.sweepOp 16]
    rfl rfl rfl rfl (by decide) (by decide) (by decide) (by decide)

/-- C2 (code bug): `LogoutHandler` returns 200 without validating or
revoking anything, so after logging out with a valid access token the
registry is unchanged and the same access token still passes the
middleware, instead of being rejected as revoked. -/
theorem logout_does_not_revoke (u : Int) (j : String) (t0 ttl now : Nat)
    (tb : TokenBlacklist)
    (hnow : now ≤ t0 + ttl) (hfresh : (tb.IsBlacklisted j now).1 = false) :
    LogoutHandler (issue u "access" j t0 ttl) tb = ((200, "Logout successful"), tb) ∧
    (jwtAuthCheck (issue u "access" j t0 ttl) now
        ((LogoutHandler (issue u "access" j t0 ttl) tb).2)).1 = MWOutcome.next u := by
  refine ⟨rfl, ?_⟩
  rcases hb : tb.IsBlacklisted j now with ⟨b, tbq⟩
  rw [hb] at hfresh
  simp at hfresh
  subst hfresh
  simp [LogoutHandler, jwtAuthCheck, validateKind, issue, hb, Nat.not_lt.2 hnow]

/-- Witness for C2 at concrete data: access token with jti a1 logged out
at time 10; it still validates afterwards. -/
theorem logout_does_not_revoke_witness :
    LogoutHandler (issue 1 "access" "a1" 0 900) NewTokenBlacklist =
      ((200, "Logout successful"), NewTokenBlacklist) ∧
    (jwtAuthCheck (issue 1 "access" "a1" 0 900) 10
        ((LogoutHandler (issue 1 "access" "a1" 0 900) NewTokenBlacklist).2)).1 =
      MWOutcome.next 1 :=
  logout_does_not_revoke 1 "a1" 0 900 10 NewTokenBlacklist (by decide) (by decide)

/-- C3 (code bug): a successful login issues exactly one token, and that
token carries neither a kind tag nor a jti, so it is not an access and
refresh pair with distinct unique ids; the repository's own middleware
rejects it with the invalid-token-type body whenever it is presented
unexpired. -/
theorem login_issues_single_untyped_token (userId : Int) (username : String)
    (t0 : Nat) :
    (loginIssuedTokens userId username t0).length = 1 ∧
    ∀ tok ∈ loginIssuedTokens userId username t0,
      tok.claims.type = none ∧ tok.claims.jti = none ∧
      ∀ now tb, now ≤ t0 + 86400 →
        (jwtAuthCheck tok now tb).1 = MWOutcome.unauthorized "Invalid token type" := by
  refine ⟨rfl, ?_⟩
  intro tok htok
  simp [loginIssuedTokens] at htok
  subst htok
  refine ⟨rfl, rfl, ?_⟩
  intro now tb hnow
  simp [jwtAuthCheck, validateKind, loginClaims, Nat.not_lt.2 hnow, rejectMsg]

/-- Witness for C3 at concrete data: the token of a login at time 0 for
user 1 is rejected by the middleware at time 10. -/
theorem login_issues_single_untyped_token_witness :
    (loginIssuedTokens 1 "u" 0).length = 1 ∧
    (jwtAuthCheck ⟨loginClaims 1 "u" 0, true⟩ 10 NewTokenBlacklist).1 =
      MWOutcome.unauthorized "Invalid token type" :=
  ⟨(login_issues_single_untyped_token 1 "u" 0).1,
    ((login_issues_single_untyped_token 1 "u" 0).2 ⟨loginClaims 1 "u" 0, true⟩
      (by simp [loginIssuedTokens])).2.2 10 NewTokenBlacklist (by decide)⟩

/-- C9 counterexample: the token issued at login at time 0 expires at
86400 seconds (24 hours), not at 900 seconds (15 minutes) after
issuance. -/
theorem login_ttl_counterexample :
    (loginClaims 1 "u" 0).exp = 86400 ∧ ¬ ((86400 : Nat) = 0 + 900) :=
  ⟨rfl, by decide⟩

/-- C9 (amended): every token issued at login carries an expiry exactly
24 hours (86400 seconds) after its issuance time; no token ttl is
configurable anywhere in the code. -/
theorem login_token_ttl_24h (userId : Int) (username : String) (t0 : Nat) :
    (loginClaims userId username t0).exp = t0 + 86400 := rfl

end MessagingSystem
